import Mathlib

set_option autoImplicit false

namespace Tangled

/-! Shallow embedding of the tangled networking library (src/lib.rs and
src/error.rs).  Pure state is modelled explicitly: the crossbeam channels
become lists, channel closure becomes a boolean, and the atomic flags become
plain booleans.  Types that live in the uninspected reactor module are
modelled from the spec and carry a doc comment saying so. -/

/-- DATAGRAM_MAX_LEN constant, src/lib.rs line 12. -/
def DATAGRAM_MAX_LEN : Nat := 1500

/-- MAX_MESSAGE_LEN constant, src/lib.rs line 13. -/
def MAX_MESSAGE_LEN : Nat := 1200

/-- PeerId is u16, src/lib.rs line 24; modelled as Nat. -/
abbrev PeerId := Nat

/-- SeqId is u16, src/lib.rs line 25; modelled as Nat. -/
abbrev SeqId := Nat

/-- One byte of payload data; modelled as Nat. -/
abbrev Byte := Nat

/-- Socket addresses are opaque to every inspected operation; modelled as Nat
tokens. -/
abbrev SocketAddr := Nat

/-- Modelled from the spec: the Reliability delivery class of the reactor
module (spec section 3), whose source file is not in the inspected tree.
Two variants, Reliable and Unreliable. -/
inductive Reliability where
  | Reliable
  | Unreliable
deriving DecidableEq

/-- Modelled from the spec: the Destination type of the reactor module (spec
section 3), polymorphic over single peer, broadcast to all, and broadcast
except self.  The send path never inspects it. -/
inductive Destination where
  | One (id : PeerId)
  | Broadcast
  | BroadcastExceptSelf
deriving DecidableEq

/-- NetError enumeration, src/error.rs lines 7 to 13. -/
inductive NetError where
  | UnknownPeer
  | Disconnected
  | MessageTooLong
  | Dropped
deriving DecidableEq

/-- The From impl for channel send errors, src/error.rs lines 30 to 34: every
channel send failure converts to Disconnected. -/
def sendErrorToNet : NetError := NetError.Disconnected

/-- ReceivedMessage struct, src/lib.rs lines 27 to 30. -/
structure ReceivedMessage where
  src : PeerId
  data : List Byte
deriving DecidableEq

/-- Message struct (outbound queue element), src/lib.rs lines 32 to 36. -/
structure Message where
  dst : Destination
  data : List Byte
  reliability : Reliability
deriving DecidableEq

/-- PeerState enumeration, src/lib.rs lines 38 to 44; the default is
PendingConnection. -/
inductive PeerState where
  | PendingConnection
  | Connected
  | Disconnected
deriving DecidableEq

/-- Modelled from the spec: the Settings struct of the reactor module (spec
section 3), holding confirm_max_period and connection_timeout with defaults
when unset.  Durations are modelled as Nat milliseconds; the exact default
values are not observable from the inspected sources and no claim depends on
them. -/
structure Settings where
  confirmMaxPeriod : Nat := 1000
  connectionTimeout : Nat := 5000
deriving DecidableEq

/-- Modelled from the spec: the RemotePeer directory entry of the reactor
module (spec section 3): address, state, last seen timestamp, next send seq,
pending reliable table and seen seq window.  The Rust code inserts a default
value for the host self entry. -/
structure RemotePeer where
  addr : Option SocketAddr := none
  state : PeerState := PeerState.PendingConnection
  lastSeen : Nat := 0
  nextSendSeq : SeqId := 0
  pendingReliable : List (SeqId × List Byte × Nat) := []
  seenSeqWindow : List SeqId := []
deriving DecidableEq

/-- Shared context struct built in Peer::new, src/lib.rs lines 61 to 72.
Channels become lists plus an open flag for the outbound sender (crossbeam
send fails exactly when every receiver is gone); atomics become plain
values. -/
structure Shared where
  inboundQueue : List ReceivedMessage
  outboundQueue : List Message
  outboundOpen : Bool
  keepAlive : Bool
  hostAddr : Option SocketAddr
  peerState : PeerState
  remotePeers : List (PeerId × RemotePeer)
  maxPacketsPerSecond : Nat
  myId : Option PeerId
  settings : Settings
deriving DecidableEq

/-- Peer::new, src/lib.rs lines 54 to 78, successful path after the socket
bind: constructs the Shared context (my_id is Some 0 exactly when no host
address is given) and inserts the host self entry with id 0 into the empty
directory when hosting.  The reactor thread spawn is I/O and out of the
state model. -/
def Peer.new (hostAddr : Option SocketAddr) (settings : Option Settings) : Shared :=
  let base : Shared :=
    { inboundQueue := []
      outboundQueue := []
      outboundOpen := true
      keepAlive := true
      hostAddr := hostAddr
      peerState := PeerState.PendingConnection
      remotePeers := []
      maxPacketsPerSecond := 256
      myId := if hostAddr.isNone then some 0 else none
      settings := settings.getD {} }
  if hostAddr.isNone then
    { base with remotePeers := [(0, {})] }
  else
    base

/-- Peer::host, src/lib.rs lines 80 to 82. -/
def Peer.host (settings : Option Settings) : Shared :=
  Peer.new none settings

/-- Peer::connect, src/lib.rs lines 84 to 86. -/
def Peer.connect (hostAddr : SocketAddr) (settings : Option Settings) : Shared :=
  Peer.new (some hostAddr) settings

/-- Peer::send, src/lib.rs lines 88 to 108: reject oversized payloads with
MessageTooLong; reject unreliable sends with Dropped when twice the outbound
queue length exceeds max_packets_per_second; otherwise push onto the
outbound channel, mapping a channel send failure (closed channel, message
not enqueued) to Disconnected via the From impl in src/error.rs. -/
def Peer.send (s : Shared) (dst : Destination) (data : List Byte)
    (reliability : Reliability) : Except NetError Unit × Shared :=
  if data.length > MAX_MESSAGE_LEN then
    (Except.error NetError.MessageTooLong, s)
  else if reliability = Reliability.Unreliable ∧
      s.outboundQueue.length * 2 > s.maxPacketsPerSecond then
    (Except.error NetError.Dropped, s)
  else if s.outboundOpen then
    (Except.ok (),
      { s with outboundQueue := s.outboundQueue ++ [⟨dst, data, reliability⟩] })
  else
    (Except.error sendErrorToNet, s)

/-- Peer::recv, src/lib.rs lines 110 to 113: drain every message currently
buffered in the inbound channel (a finite sequence, empty when nothing is
buffered); the return type has no error channel. -/
def Peer.recv (s : Shared) : List ReceivedMessage × Shared :=
  (s.inboundQueue, { s with inboundQueue := [] })

/-- The Drop impl for Peer, src/lib.rs lines 115 to 121: store false into the
shared keep_alive flag and nothing else. -/
def Peer.drop (s : Shared) : Shared :=
  { s with keepAlive := false }

/-! Receiver side of the reliability engine, needed for claim C1.  Its source
(the reactor module) is not in the inspected tree, so it is modelled from the
spec. -/

/-- Modelled from the spec: the per source receiver state of the Reliability
Engine (spec sections 3 and 4.2), missing from the inspected tree: the
sliding window of recently seen seq values, the payloads delivered to the
application inbound queue, and the acks sent back. -/
structure ReceiverState where
  seenSeqWindow : List SeqId
  delivered : List (List Byte)
  acks : List SeqId
deriving DecidableEq

/-- Modelled from the spec: handling of one incoming Data packet (spec
section 4.2), missing from the inspected tree: every Data packet triggers an
Ack reply, even for previously seen sequence numbers; incoming data is
deduplicated against the seen window, and duplicates are never re-delivered
to the application. -/
def handleData (st : ReceiverState) (seq : SeqId) (payload : List Byte) :
    ReceiverState :=
  if seq ∈ st.seenSeqWindow then
    { st with acks := st.acks ++ [seq] }
  else
    { seenSeqWindow := seq :: st.seenSeqWindow
      delivered := st.delivered ++ [payload]
      acks := st.acks ++ [seq] }

/-- Modelled from the spec: the inbound pump feeding each arriving Data
packet of one source to the reliability engine in arrival order (spec
section 4.3), missing from the inspected tree. -/
def runReceiver (st : ReceiverState) (arrivals : List (SeqId × List Byte)) :
    ReceiverState :=
  arrivals.foldl (fun acc d => handleData acc d.1 d.2) st

/-- Modelled from the spec: the datagrams emitted for one logical reliable
send (spec sections 4.2 and 4.5), missing from the inspected tree: the send
is assigned one SeqId and transmitted, and every retransmission reuses the
same seq and payload, so one logical send with k retransmissions puts k + 1
identical datagrams on the wire. -/
def sendDatagrams (seq : SeqId) (payload : List Byte) (retransmits : Nat) :
    List (SeqId × List Byte) :=
  List.replicate (retransmits + 1) (seq, payload)

/-! Sample states used by the witness theorems. -/

/-- A sample host state. -/
def sampleHost : Shared := Peer.host none

/-- A sample outbound queue element. -/
def sampleMsg : Message := ⟨Destination.One 0, [7], Reliability.Unreliable⟩

/-- A host state whose outbound queue is deep enough that twice its length
exceeds max_packets_per_second (129 pending messages against the limit of
256). -/
def congestedHost : Shared :=
  { sampleHost with outboundQueue := List.replicate 129 sampleMsg }

/-- A host state whose outbound channel has been closed. -/
def closedHost : Shared :=
  { sampleHost with outboundOpen := false }

/-! Helper lemmas about the modelled receiver. -/

theorem runReceiver_nil (st : ReceiverState) : runReceiver st [] = st := rfl

theorem runReceiver_cons (st : ReceiverState) (d : SeqId × List Byte)
    (ds : List (SeqId × List Byte)) :
    runReceiver st (d :: ds) = runReceiver (handleData st d.1 d.2) ds := rfl

theorem handleData_dup (st : ReceiverState) (s : SeqId) (p : List Byte)
    (h : s ∈ st.seenSeqWindow) :
    handleData st s p = { st with acks := st.acks ++ [s] } := by
  simp [handleData, h]

theorem handleData_fresh (st : ReceiverState) (s : SeqId) (p : List Byte)
    (h : s ∉ st.seenSeqWindow) :
    handleData st s p =
      ⟨s :: st.seenSeqWindow, st.delivered ++ [p], st.acks ++ [s]⟩ := by
  simp [handleData, h]

/-- Once a seq is in the seen window, feeding any number of duplicates of it
changes neither the delivered list nor the window. -/
theorem runReceiver_dups_not_redelivered (s : SeqId) (p : List Byte)
    (ds : List (SeqId × List Byte)) (st : ReceiverState)
    (hseen : s ∈ st.seenSeqWindow) (hall : ∀ d ∈ ds, d = (s, p)) :
    (runReceiver st ds).delivered = st.delivered ∧
    (runReceiver st ds).seenSeqWindow = st.seenSeqWindow := by
  induction ds generalizing st with
  | nil => exact ⟨rfl, rfl⟩
  | cons d rest ih =>
    have hd : d = (s, p) := hall d (List.mem_cons_self d rest)
    subst hd
    rw [runReceiver_cons, handleData_dup st s p hseen]
    exact ih _ hseen (fun d hd => hall d (List.mem_cons_of_mem _ hd))

/-- Feeding a nonempty stream of identical datagrams carrying a fresh seq
delivers the payload exactly once. -/
theorem runReceiver_exactly_once (s : SeqId) (p : List Byte)
    (ds : List (SeqId × List Byte)) (st : ReceiverState)
    (hfresh : s ∉ st.seenSeqWindow) (hne : ds ≠ [])
    (hall : ∀ d ∈ ds, d = (s, p)) :
    (runReceiver st ds).delivered = st.delivered ++ [p] := by
  cases ds with
  | nil => exact absurd rfl hne
  | cons d rest =>
    have hd : d = (s, p) := hall d (List.mem_cons_self d rest)
    subst hd
    rw [runReceiver_cons, handleData_fresh st s p hfresh]
    exact (runReceiver_dups_not_redelivered s p rest _
      (List.mem_cons_self s _) (fun d hd => hall d (List.mem_cons_of_mem _ hd))).1

/-! Claim theorems. -/

/-- Claim C1: for every payload P within the size limit, send with the
Reliable class succeeds and enqueues exactly one outbound message, and at
the destination the payload is delivered exactly once: the modelled
receiver, fed any nonempty loss-surviving subsequence of the identical
datagrams emitted for that one logical send (original plus retransmissions,
all reusing the same seq), appends P to the application inbound data
exactly once. -/
theorem reliable_send_exactly_once (sh : Shared) (dst : Destination)
    (P : List Byte) (hlen : P.length ≤ MAX_MESSAGE_LEN)
    (hopen : sh.outboundOpen = true) (seq : SeqId) (k : Nat)
    (st : ReceiverState) (hfresh : seq ∉ st.seenSeqWindow)
    (arrivals : List (SeqId × List Byte))
    (hloss : arrivals.Sublist (sendDatagrams seq P k)) (hne : arrivals ≠ []) :
    (Peer.send sh dst P Reliability.Reliable).1 = Except.ok () ∧
    (Peer.send sh dst P Reliability.Reliable).2.outboundQueue
      = sh.outboundQueue ++ [⟨dst, P, Reliability.Reliable⟩] ∧
    (runReceiver st arrivals).delivered = st.delivered ++ [P] := by
  have hnot : ¬ P.length > MAX_MESSAGE_LEN := Nat.not_lt.mpr hlen
  refine ⟨?_, ?_, ?_⟩
  · simp [Peer.send, hnot, hopen]
  · simp [Peer.send, hnot, hopen]
  · refine runReceiver_exactly_once seq P arrivals st hfresh hne ?_
    intro d hd
    have hmem : d ∈ sendDatagrams seq P k := hloss.subset hd
    simp only [sendDatagrams, List.mem_replicate] at hmem
    exact hmem.2

/-- Witness for C1 at the concrete scenario of the spec: payload
[128, 51, 32], seq 5, two retransmissions, no loss. -/
theorem reliable_send_exactly_once_witness :
    (Peer.send sampleHost (Destination.One 0) [128, 51, 32]
        Reliability.Reliable).1 = Except.ok () ∧
    (runReceiver ⟨[], [], []⟩ (sendDatagrams 5 [128, 51, 32] 2)).delivered
      = [[128, 51, 32]] := by
  have h := reliable_send_exactly_once sampleHost (Destination.One 0)
    [128, 51, 32] (by norm_num [MAX_MESSAGE_LEN]) (by decide) 5 2 ⟨[], [], []⟩
    (by simp) (sendDatagrams 5 [128, 51, 32] 2) (List.Sublist.refl _)
    (by decide)
  exact ⟨h.1, by simpa using h.2.2⟩

/-- Claim C2: for every payload longer than MAX_MESSAGE_LEN, send returns
MessageTooLong and leaves the whole state unchanged, so nothing is enqueued
on the outbound queue and no datagram can ever be emitted for it, for every
destination and reliability class. -/
theorem send_too_long_rejected (s : Shared) (dst : Destination)
    (data : List Byte) (rel : Reliability)
    (h : data.length > MAX_MESSAGE_LEN) :
    Peer.send s dst data rel = (Except.error NetError.MessageTooLong, s) := by
  simp [Peer.send, h]

/-- Witness for C2: a 1201 byte payload is rejected. -/
theorem send_too_long_rejected_witness :
    (List.replicate 1201 (0 : Byte)).length > MAX_MESSAGE_LEN ∧
    Peer.send sampleHost (Destination.One 0) (List.replicate 1201 0)
        Reliability.Reliable
      = (Except.error NetError.MessageTooLong, sampleHost) :=
  ⟨by norm_num [MAX_MESSAGE_LEN],
   send_too_long_rejected sampleHost (Destination.One 0)
     (List.replicate 1201 0) Reliability.Reliable
     (by norm_num [MAX_MESSAGE_LEN])⟩

/-- Claim C3: send returns Dropped exactly when the reliability is
Unreliable, the payload is within the size limit, and twice the outbound
queue depth exceeds max_packets_per_second; a send that does not return ok
leaves the state unchanged (never enqueues), and a within-limit Reliable
send is never rejected with Dropped. -/
theorem send_dropped_iff (s : Shared) (dst : Destination) (data : List Byte)
    (rel : Reliability) :
    ((Peer.send s dst data rel).1 = Except.error NetError.Dropped ↔
      rel = Reliability.Unreliable ∧ data.length ≤ MAX_MESSAGE_LEN ∧
        s.outboundQueue.length * 2 > s.maxPacketsPerSecond) ∧
    ((Peer.send s dst data rel).1 = Except.ok () ∨
      (Peer.send s dst data rel).2 = s) ∧
    ((Peer.send s dst data Reliability.Reliable).1
      ≠ Except.error NetError.Dropped) := by
  unfold Peer.send
  split_ifs with h1 h2 h3 <;> simp_all [sendErrorToNet]

/-- Witness for C3: on a host with 129 queued messages a small Unreliable
send is rejected with Dropped. -/
theorem send_dropped_iff_witness :
    (Peer.send congestedHost (Destination.One 1) [7]
        Reliability.Unreliable).1 = Except.error NetError.Dropped :=
  (send_dropped_iff congestedHost (Destination.One 1) [7]
    Reliability.Unreliable).1.mpr
    ⟨rfl, by norm_num [MAX_MESSAGE_LEN],
     by norm_num [congestedHost, sampleHost, Peer.host, Peer.new]⟩

/-- Claim C4: immediately after host the directory holds exactly the entry
for PeerId 0 (the host itself) and my_id is 0; immediately after connect
the directory is empty and no self id is assigned. -/
theorem host_connect_initial_state (settings : Option Settings)
    (addr : SocketAddr) :
    (Peer.host settings).remotePeers = [((0 : PeerId), ({} : RemotePeer))] ∧
    (Peer.host settings).myId = some 0 ∧
    (Peer.connect addr settings).remotePeers = [] ∧
    (Peer.connect addr settings).myId = none := by
  simp [Peer.host, Peer.connect, Peer.new]

/-- Claim C5: recv returns exactly the messages currently buffered in the
inbound queue and consumes them (a second recv on the resulting state yields
the empty sequence), while touching no other component of the state; its
return type has no error channel, so absence of data is just the empty
list. -/
theorem recv_drains_inbound (s : Shared) :
    (Peer.recv s).1 = s.inboundQueue ∧
    (Peer.recv (Peer.recv s).2).1 = [] ∧
    (Peer.recv s).2.outboundQueue = s.outboundQueue ∧
    (Peer.recv s).2.remotePeers = s.remotePeers ∧
    (Peer.recv s).2.keepAlive = s.keepAlive ∧
    (Peer.recv s).2.myId = s.myId := by
  simp [Peer.recv]

/-- Claim C6: when the internal outbound channel is closed, send on any
within-limit, non-backpressured message returns Disconnected and enqueues
nothing, and the conversion of a channel send failure is exactly
Disconnected. -/
theorem send_closed_disconnected (s : Shared) (dst : Destination)
    (data : List Byte) (rel : Reliability)
    (hlen : data.length ≤ MAX_MESSAGE_LEN)
    (hbp : ¬(rel = Reliability.Unreliable ∧
      s.outboundQueue.length * 2 > s.maxPacketsPerSecond))
    (hcl : s.outboundOpen = false) :
    Peer.send s dst data rel = (Except.error NetError.Disconnected, s) ∧
    sendErrorToNet = NetError.Disconnected := by
  refine ⟨?_, rfl⟩
  simp [Peer.send, Nat.not_lt.mpr hlen, hbp, hcl, sendErrorToNet]

/-- Witness for C6: a small Reliable send on the closed-channel host state. -/
theorem send_closed_disconnected_witness :
    Peer.send closedHost (Destination.One 0) [7] Reliability.Reliable
      = (Except.error NetError.Disconnected, closedHost) ∧
    sendErrorToNet = NetError.Disconnected :=
  send_closed_disconnected closedHost (Destination.One 0) [7]
    Reliability.Reliable (by norm_num [MAX_MESSAGE_LEN]) (by decide) (by decide)

/-- Claim C7: dropping the Peer handle stores false into the keep_alive flag
and mutates nothing else: every other component of the shared state is
unchanged. -/
theorem drop_clears_keep_alive (s : Shared) :
    Peer.drop s = { s with keepAlive := false } ∧
    (Peer.drop s).keepAlive = false ∧
    (Peer.drop s).inboundQueue = s.inboundQueue ∧
    (Peer.drop s).outboundQueue = s.outboundQueue ∧
    (Peer.drop s).outboundOpen = s.outboundOpen ∧
    (Peer.drop s).hostAddr = s.hostAddr ∧
    (Peer.drop s).peerState = s.peerState ∧
    (Peer.drop s).remotePeers = s.remotePeers ∧
    (Peer.drop s).maxPacketsPerSecond = s.maxPacketsPerSecond ∧
    (Peer.drop s).myId = s.myId ∧
    (Peer.drop s).settings = s.settings := by
  simp [Peer.drop]

/-- Claim C8: the application payload cap is strictly below the datagram
cap, leaving exactly 300 bytes of header headroom. -/
theorem payload_cap_headroom :
    MAX_MESSAGE_LEN < DATAGRAM_MAX_LEN ∧
    DATAGRAM_MAX_LEN - MAX_MESSAGE_LEN = 300 := by
  decide

/-- Claim C9: a message that both exceeds the size limit and meets the
Unreliable backpressure condition gets MessageTooLong, not Dropped: the size
check runs first. -/
theorem size_check_precedes_backpressure (s : Shared) (dst : Destination)
    (data : List Byte) (h1 : data.length > MAX_MESSAGE_LEN)
    (_h2 : s.outboundQueue.length * 2 > s.maxPacketsPerSecond) :
    (Peer.send s dst data Reliability.Unreliable).1
      = Except.error NetError.MessageTooLong ∧
    (Peer.send s dst data Reliability.Unreliable).1
      ≠ Except.error NetError.Dropped := by
  simp [Peer.send, h1]

/-- Witness for C9: an oversized payload on the congested host. -/
theorem size_check_precedes_backpressure_witness :
    (Peer.send congestedHost (Destination.One 0)
        (List.replicate 1201 0) Reliability.Unreliable).1
      = Except.error NetError.MessageTooLong :=
  (size_check_precedes_backpressure congestedHost (Destination.One 0)
    (List.replicate 1201 0) (by norm_num [MAX_MESSAGE_LEN])
    (by norm_num [congestedHost, sampleHost, Peer.host, Peer.new])).1

/-- Claim C10: send never returns UnknownPeer; its result is always one of
ok, MessageTooLong, Dropped, Disconnected, and it is independent of the peer
directory, so a destination absent from the directory is still accepted at
the send boundary. -/
theorem send_never_unknown_peer (s : Shared) (dst : Destination)
    (data : List Byte) (rel : Reliability)
    (ps : List (PeerId × RemotePeer)) :
    (Peer.send s dst data rel).1 ≠ Except.error NetError.UnknownPeer ∧
    ((Peer.send s dst data rel).1 = Except.ok () ∨
     (Peer.send s dst data rel).1 = Except.error NetError.MessageTooLong ∨
     (Peer.send s dst data rel).1 = Except.error NetError.Dropped ∨
     (Peer.send s dst data rel).1 = Except.error NetError.Disconnected) ∧
    (Peer.send { s with remotePeers := ps } dst data rel).1
      = (Peer.send s dst data rel).1 := by
  refine ⟨?_, ?_, ?_⟩
  · unfold Peer.send
    split_ifs <;> simp [sendErrorToNet]
  · unfold Peer.send
    split_ifs <;> simp [sendErrorToNet]
  · cases s
    unfold Peer.send
    dsimp only
    split_ifs <;> rfl

/-- Witness for C10: a send addressed to an id absent from the fresh host
directory still succeeds. -/
theorem send_never_unknown_peer_witness :
    (Peer.send sampleHost (Destination.One 5) [1]
        Reliability.Reliable).1 ≠ Except.error NetError.UnknownPeer ∧
    (Peer.send sampleHost (Destination.One 5) [1]
        Reliability.Reliable).1 = Except.ok () :=
  ⟨(send_never_unknown_peer sampleHost (Destination.One 5) [1]
      Reliability.Reliable []).1, rfl⟩

end Tangled
